import Mathlib

/-!
Verification of the scheduling and progression core of the
HindiChromeExtension repository: the SM-2 spaced-repetition calculators
(`calculateSRSData` in `src/unnamed/part_006`, `SM2Engine.processReview`
in `src/unnamed/part_008`) and the passive-learning session engine
(`SpeedLearnEngine` in `src/src/utils/curriculum-storage.ts`).

JavaScript numbers are modelled as exact rationals (`ℚ`) for ease factors
and as integers (`ℤ`) for timestamps and day intervals; `Math.round` is
modelled as `jsRound` (round half toward positive infinity, which is the
JavaScript behaviour). The injected clock `now` replaces `Date.now()`.
-/

/-- JavaScript `Math.round`: floor of x + 1/2 (ties round toward +∞). -/
def jsRound (x : ℚ) : ℤ := ⌊x + 1/2⌋

/-- Milliseconds in a day, `24 * 60 * 60 * 1000` as in the source. -/
def millisecondsInADay : ℤ := 24 * 60 * 60 * 1000

/-- Modelled from the spec: the `SpeedLearnStage` enum is declared in
`src/types/vocabulary.ts`, which is not among the provided sources; its
four stages are taken from the spec's stage list
`NEW | PASSIVE_LEARNING | MASTERED | LONG_TERM_REVIEW` (all four are also
named in the repository's documentation and the first two plus MASTERED
are used throughout the provided code). -/
inductive SpeedLearnStage where
  | NEW
  | PASSIVE_LEARNING
  | MASTERED
  | LONG_TERM_REVIEW
deriving DecidableEq, Repr

/-- The `SRSData` record (`src/types/srs` / `src/types/vocabulary`),
merging the spaced-repetition fields used by `calculateSRSData` and
`SM2Engine.processReview` with the speed-learn fields used by
`SpeedLearnEngine.updateWordExposure`. -/
structure SRSData where
  interval : ℤ
  repetitions : ℕ
  easeFactor : ℚ
  nextReviewDate : ℤ
  lastReviewed : ℤ
  createdAt : ℤ
  updatedAt : ℤ
  speedLearnStage : SpeedLearnStage
  exposureCount : ℕ
  lastSpeedLearnSession : Option ℤ
  masteredAt : Option ℤ
deriving DecidableEq, Repr

/-- `MINIMUM_EASE_FACTOR` of `src/unnamed/part_006` (equal to
`SM2_CONFIG.MIN_EASE_FACTOR` of `src/unnamed/part_008`). -/
def MINIMUM_EASE_FACTOR : ℚ := 13/10

/-- `calculateSRSData` from `src/unnamed/part_006` lines 375-418
(`Date.now()` passed explicitly as `now`). -/
def calculateSRSData (srsData : SRSData) (quality : ℕ) (now : ℤ) : SRSData :=
  if quality < 3 then
    { srsData with
        repetitions := 0
        interval := 1
        nextReviewDate := now + millisecondsInADay
        lastReviewed := now
        updatedAt := now }
  else
    let newRepetitions := srsData.repetitions + 1
    let newInterval : ℤ :=
      if newRepetitions = 1 then 1
      else if newRepetitions = 2 then 6
      else jsRound ((srsData.interval : ℚ) * srsData.easeFactor)
    let newEaseFactor : ℚ :=
      srsData.easeFactor +
        (1/10 - (5 - (quality : ℚ)) * (8/100 + (5 - (quality : ℚ)) * (2/100)))
    let clampedEaseFactor : ℚ := max newEaseFactor MINIMUM_EASE_FACTOR
    { srsData with
        repetitions := newRepetitions
        interval := newInterval
        easeFactor := clampedEaseFactor
        nextReviewDate := now + newInterval * millisecondsInADay
        lastReviewed := now
        updatedAt := now }

/-- `SM2Engine.calculateNewEaseFactor` from `src/unnamed/part_008`:
maps the 1-4 quality scale to 2-5 via `q = quality + 1`, then applies the
SM-2 ease formula and clamps at `MIN_EASE_FACTOR`. -/
def calculateNewEaseFactor (currentEaseFactor : ℚ) (quality : ℕ) : ℚ :=
  let q : ℚ := (quality : ℚ) + 1
  let newEaseFactor := currentEaseFactor + (1/10 - (5 - q) * (8/100 + (5 - q) * (2/100)))
  max MINIMUM_EASE_FACTOR newEaseFactor

/-- The `srsData` transformation of `SM2Engine.processReview` from
`src/unnamed/part_008` lines 122-169 (`SM2_CONFIG`: `QUALITY_THRESHOLD = 3`,
`INITIAL_INTERVAL = 1`, `SECOND_INTERVAL = 6`; `Date.now()` passed as
`now`; the surrounding item spread only replaces `srsData`). -/
def SM2Engine_processReview (srs : SRSData) (quality : ℕ) (now : ℤ) : SRSData :=
  let s0 := { srs with lastReviewed := now, updatedAt := now }
  let s1 :=
    if quality ≥ 3 then
      let reps := s0.repetitions + 1
      let interval : ℤ :=
        if reps = 1 then 1
        else if reps = 2 then 6
        else jsRound ((s0.interval : ℚ) * s0.easeFactor)
      { s0 with
          repetitions := reps
          interval := interval
          easeFactor := calculateNewEaseFactor s0.easeFactor quality }
    else
      { s0 with
          repetitions := 0
          interval := 1
          easeFactor := max MINIMUM_EASE_FACTOR (s0.easeFactor - 2/10) }
  { s1 with nextReviewDate := now + s1.interval * millisecondsInADay }

/-- A concrete `SRSData` used as input in witnesses and counterexamples:
an item two successful reviews in with the initial ease factor 2.5. -/
def sampleSRS : SRSData :=
  { interval := 6
    repetitions := 2
    easeFactor := 5/2
    nextReviewDate := 0
    lastReviewed := 0
    createdAt := 0
    updatedAt := 0
    speedLearnStage := SpeedLearnStage.PASSIVE_LEARNING
    exposureCount := 0
    lastSpeedLearnSession := none
    masteredAt := none }

/-- C1. For quality in {3,4,5}, `calculateSRSData` increments the
repetition count, sets the interval to 1 / 6 / round(interval * EF)
according to the new repetition count, applies the SM-2 ease-factor
update clamped at 1.3, and schedules the next review `newInterval` days
after `now`. -/
theorem c1_success_branch (srs : SRSData) (quality : ℕ) (now : ℤ)
    (h3 : 3 ≤ quality) (h5 : quality ≤ 5) :
    let r := calculateSRSData srs quality now
    r.repetitions = srs.repetitions + 1 ∧
    r.interval = (if srs.repetitions + 1 = 1 then 1
      else if srs.repetitions + 1 = 2 then 6
      else jsRound ((srs.interval : ℚ) * srs.easeFactor)) ∧
    r.easeFactor = max (13/10)
      (srs.easeFactor +
        (1/10 - (5 - (quality : ℚ)) * (8/100 + (5 - (quality : ℚ)) * (2/100)))) ∧
    r.nextReviewDate = now + r.interval * 86400000 := by
  have hq : ¬ quality < 3 := by omega
  simp only [calculateSRSData, hq, if_false, millisecondsInADay]
  refine ⟨trivial, trivial, ?_, by norm_num⟩
  simp [MINIMUM_EASE_FACTOR, max_comm]

/-- Witness for C1 at `sampleSRS`, quality 4, now 0. -/
theorem c1_success_branch_witness :
    (3 ≤ 4 ∧ 4 ≤ 5) ∧
    (let r := calculateSRSData sampleSRS 4 0
     r.repetitions = sampleSRS.repetitions + 1 ∧
     r.interval = (if sampleSRS.repetitions + 1 = 1 then 1
       else if sampleSRS.repetitions + 1 = 2 then 6
       else jsRound ((sampleSRS.interval : ℚ) * sampleSRS.easeFactor)) ∧
     r.easeFactor = max (13/10)
       (sampleSRS.easeFactor +
         (1/10 - (5 - (4 : ℚ)) * (8/100 + (5 - (4 : ℚ)) * (2/100)))) ∧
     r.nextReviewDate = 0 + r.interval * 86400000) :=
  ⟨by norm_num, c1_success_branch sampleSRS 4 0 (by norm_num) (by norm_num)⟩

/-- C2. For quality in {0,1,2}, `calculateSRSData` resets the repetition
count to 0, the interval to 1, and schedules the next review one day
(86400000 ms) after `now`, regardless of the prior state. -/
theorem c2_failure_branch (srs : SRSData) (quality : ℕ) (now : ℤ)
    (h : quality < 3) :
    let r := calculateSRSData srs quality now
    r.repetitions = 0 ∧ r.interval = 1 ∧ r.nextReviewDate = now + 86400000 := by
  simp only [calculateSRSData, if_pos h, millisecondsInADay]
  exact ⟨trivial, trivial, by norm_num⟩

/-- Witness for C2 at `sampleSRS`, quality 1, now 42. -/
theorem c2_failure_branch_witness :
    (1 < 3) ∧
    (let r := calculateSRSData sampleSRS 1 42
     r.repetitions = 0 ∧ r.interval = 1 ∧ r.nextReviewDate = 42 + 86400000) :=
  ⟨by norm_num, c2_failure_branch sampleSRS 1 42 (by norm_num)⟩

/-- C3. `calculateSRSData` preserves the invariant `easeFactor ≥ 1.3`:
the success branch clamps at 1.3, the failure branch leaves the ease
factor unchanged. -/
theorem c3_ease_factor_invariant (srs : SRSData) (quality : ℕ) (now : ℤ)
    (hEF : (13/10 : ℚ) ≤ srs.easeFactor) (_h5 : quality ≤ 5) :
    (13/10 : ℚ) ≤ (calculateSRSData srs quality now).easeFactor := by
  by_cases h : quality < 3
  · simpa [calculateSRSData, if_pos h] using hEF
  · simp only [calculateSRSData, if_neg h]
    exact le_max_of_le_right (by norm_num [MINIMUM_EASE_FACTOR])

/-- Witness for C3 at `sampleSRS`, quality 0, now 0. -/
theorem c3_ease_factor_invariant_witness :
    ((13/10 : ℚ) ≤ sampleSRS.easeFactor ∧ 0 ≤ 5) ∧
    (13/10 : ℚ) ≤ (calculateSRSData sampleSRS 0 0).easeFactor :=
  ⟨⟨by norm_num [sampleSRS], by norm_num⟩,
   c3_ease_factor_invariant sampleSRS 0 0 (by norm_num [sampleSRS]) (by norm_num)⟩

/-- C4. The two SM-2 implementations diverge on the failure branch: on
`sampleSRS` (ease factor 2.5 > 1.3) with failing quality 2,
`calculateSRSData` keeps the ease factor unchanged while
`SM2Engine.processReview` yields `max(1.3, EF - 0.2) = 2.3`, so the two
functions are not extensionally equal. -/
theorem c4_sm2_variants_diverge :
    (calculateSRSData sampleSRS 2 0).easeFactor = sampleSRS.easeFactor ∧
    (SM2Engine_processReview sampleSRS 2 0).easeFactor
      = max (13/10) (sampleSRS.easeFactor - 2/10) ∧
    calculateSRSData sampleSRS 2 0 ≠ SM2Engine_processReview sampleSRS 2 0 := by
  refine ⟨rfl, ?_, ?_⟩
  · simp [SM2Engine_processReview, MINIMUM_EASE_FACTOR, sampleSRS]
  · intro h
    have : (calculateSRSData sampleSRS 2 0).easeFactor
        = (SM2Engine_processReview sampleSRS 2 0).easeFactor := by rw [h]
    simp [calculateSRSData, SM2Engine_processReview, MINIMUM_EASE_FACTOR,
      sampleSRS] at this
    norm_num at this

/-- `SpeedLearnConfig` (`src/types/vocabulary`): the recognized session
options, with the field names of `SpeedLearnEngine.getDefaultConfig`. -/
structure SpeedLearnConfig where
  repetitionsPerSession : ℕ
  wordPause : ℕ
  sentencePause : ℕ
  maxWordsPerSession : ℕ
  enableBackgroundMusic : Bool
  speechSpeed : ℚ
  exposuresBeforeMastery : ℕ
deriving DecidableEq, Repr

/-- `SpeedLearnEngine.getDefaultConfig` from
`src/src/utils/curriculum-storage.ts`. -/
def getDefaultConfig : SpeedLearnConfig :=
  { repetitionsPerSession := 3
    wordPause := 800
    sentencePause := 1200
    maxWordsPerSession := 15
    enableBackgroundMusic := false
    speechSpeed := 1
    exposuresBeforeMastery := 5 }

/-- A `Partial<SpeedLearnConfig>` override as accepted by
`startSession`: every field optional. -/
structure PartialSpeedLearnConfig where
  repetitionsPerSession : Option ℕ := none
  wordPause : Option ℕ := none
  sentencePause : Option ℕ := none
  maxWordsPerSession : Option ℕ := none
  enableBackgroundMusic : Option Bool := none
  speechSpeed : Option ℚ := none
  exposuresBeforeMastery : Option ℕ := none
deriving DecidableEq, Repr

/-- The spread `{ ...this.config, ...config }` in `startSession`:
fields present in the override replace the current ones. -/
def mergeConfig (c : SpeedLearnConfig) (p : PartialSpeedLearnConfig) :
    SpeedLearnConfig :=
  { repetitionsPerSession := p.repetitionsPerSession.getD c.repetitionsPerSession
    wordPause := p.wordPause.getD c.wordPause
    sentencePause := p.sentencePause.getD c.sentencePause
    maxWordsPerSession := p.maxWordsPerSession.getD c.maxWordsPerSession
    enableBackgroundMusic := p.enableBackgroundMusic.getD c.enableBackgroundMusic
    speechSpeed := p.speechSpeed.getD c.speechSpeed
    exposuresBeforeMastery := p.exposuresBeforeMastery.getD c.exposuresBeforeMastery }

/-- `VocabularyItem` with the fields the session engine reads. -/
structure VocabularyItem where
  id : String
  targetLanguageWord : String
  englishTranslation : String
  srsData : SRSData
deriving DecidableEq, Repr

/-- `SpeedLearnSession` (`src/types/vocabulary`), as created and
mutated by `SpeedLearnEngine`. -/
structure SpeedLearnSession where
  id : String
  startTime : ℤ
  endTime : Option ℤ
  itemsPlayed : List String
  repetitionsCompleted : ℕ
  completed : Bool
  duration : Option ℤ
deriving DecidableEq, Repr

/-- One queued audio action of `playCurrentWord`: a TTS utterance with
its language tag, or a timed pause in milliseconds. -/
inductive AudioStep where
  | speak (text : String) (lang : String)
  | wait (ms : ℕ)
deriving DecidableEq, Repr

/-- The per-item four-step audio queue built by `playCurrentWord`
(lines 597-602 of `src/src/utils/curriculum-storage.ts`):
Hindi TTS, word pause, English TTS, sentence pause. -/
def buildAudioQueue (word : VocabularyItem) (cfg : SpeedLearnConfig) :
    List AudioStep :=
  [AudioStep.speak word.targetLanguageWord "hi-IN",
   AudioStep.wait cfg.wordPause,
   AudioStep.speak word.englishTranslation "en-US",
   AudioStep.wait cfg.sentencePause]

/-- The mutable fields of `SpeedLearnEngine`
(`src/src/utils/curriculum-storage.ts` lines 467-478). -/
structure SpeedLearnEngine where
  currentSession : Option SpeedLearnSession
  isPlaying : Bool
  isPaused : Bool
  currentWordIndex : ℕ
  currentRepetition : ℕ
  sessionWords : List VocabularyItem
  config : SpeedLearnConfig
  audioQueue : List AudioStep
deriving DecidableEq, Repr

/-- Stage eligibility test of `getSessionWords` (lines 564-567):
`speedLearnStage` is `NEW` or `PASSIVE_LEARNING`. -/
def isNewLearning (item : VocabularyItem) : Bool :=
  item.srsData.speedLearnStage = SpeedLearnStage.NEW ∨
    item.srsData.speedLearnStage = SpeedLearnStage.PASSIVE_LEARNING

/-- `SpeedLearnEngine.getSessionWords` (lines 547-580): filter the
collection to `NEW`/`PASSIVE_LEARNING` items; if that is empty and the
collection is not, fall back to the whole collection; in both cases
truncate with `slice(0, maxWordsPerSession)`. The debug logging and the
migration re-read have no effect on the returned list. -/
def getSessionWords (allItems : List VocabularyItem)
    (cfg : SpeedLearnConfig) : List VocabularyItem :=
  let newLearningWords := allItems.filter isNewLearning
  if newLearningWords.length = 0 ∧ allItems.length > 0 then
    allItems.take cfg.maxWordsPerSession
  else
    newLearningWords.take cfg.maxWordsPerSession

/-- The `srsData` transformation of
`SpeedLearnEngine.updateWordExposure` (lines 679-701): increment
`exposureCount` (`|| 0` is the identity on naturals), stamp
`lastSpeedLearnSession`, then either master the item and reset it into
the traditional SRS (interval 1, next review in one day, repetitions 0)
when the new count reaches `exposuresBeforeMastery`, or promote `NEW`
to `PASSIVE_LEARNING`. -/
def updateWordExposure (srs : SRSData) (cfg : SpeedLearnConfig)
    (now : ℤ) : SRSData :=
  let s1 := { srs with
      exposureCount := srs.exposureCount + 1
      lastSpeedLearnSession := some now }
  if s1.exposureCount ≥ cfg.exposuresBeforeMastery then
    { s1 with
        speedLearnStage := SpeedLearnStage.MASTERED
        masteredAt := some now
        interval := 1
        nextReviewDate := now + millisecondsInADay
        repetitions := 0 }
  else if s1.speedLearnStage = SpeedLearnStage.NEW then
    { s1 with speedLearnStage := SpeedLearnStage.PASSIVE_LEARNING }
  else
    s1

/-- The session-tracking tail of `updateWordExposure` (lines 703-706):
append the played item's id to `itemsPlayed` unless already present. -/
def recordPlayed (session : SpeedLearnSession) (wordId : String) :
    SpeedLearnSession :=
  if wordId ∈ session.itemsPlayed then session
  else { session with itemsPlayed := session.itemsPlayed ++ [wordId] }

/-- `SpeedLearnEngine.startSession` (lines 506-542) up to the point
where playback of the first word begins: the `isPlaying` guard, the
config merge, the working-set selection and its emptiness check, and on
success the fresh session record and cursor reset. The vocabulary
collection read by `getSessionWords` is passed in as `allItems` and
`Date.now()` as `now`. Returns the engine state as left by the call
(mutations before a `throw` persist in the source) together with the
thrown error or the returned session. -/
def startSession (e : SpeedLearnEngine) (allItems : List VocabularyItem)
    (cfgOverride : Option PartialSpeedLearnConfig) (now : ℤ) :
    SpeedLearnEngine × Except String SpeedLearnSession :=
  if e.isPlaying then
    (e, Except.error "Session already in progress")
  else
    let e1 := match cfgOverride with
      | some p => { e with config := mergeConfig e.config p }
      | none => e
    let words := getSessionWords allItems e1.config
    let e2 := { e1 with sessionWords := words }
    if words.length = 0 then
      (e2, Except.error "No words available for Speed Learn session")
    else
      let session : SpeedLearnSession :=
        { id := "speed-learn-" ++ toString now
          startTime := now
          endTime := none
          itemsPlayed := []
          repetitionsCompleted := 0
          completed := false
          duration := none }
      ({ e2 with
          currentSession := some session
          currentWordIndex := 0
          currentRepetition := 0
          isPlaying := true
          isPaused := false },
       Except.ok session)

/-- `SpeedLearnEngine.pauseSession` (lines 756-762): no-op unless
playing; otherwise set `isPaused` (the `speechSynthesis.cancel()` call
is an external effect with no engine-state footprint). -/
def pauseSession (e : SpeedLearnEngine) : SpeedLearnEngine :=
  if e.isPlaying = false then e else { e with isPaused := true }

/-- `SpeedLearnEngine.resumeSession` (lines 767-775): no-op unless
playing and paused; otherwise clear `isPaused` and schedule
`playCurrentWord` for the current item. -/
def resumeSession (e : SpeedLearnEngine) : SpeedLearnEngine :=
  if e.isPlaying = false ∨ e.isPaused = false then e
  else { e with isPaused := false }

/-- The synchronous head of `SpeedLearnEngine.playCurrentWord`
(lines 585-602): the inactivity guard, the current-word lookup, and the
assignment of the fresh four-step audio queue. Returns `none` on the
no-current-word path, where the source instead completes the session. -/
def playCurrentWordSetup (e : SpeedLearnEngine) :
    Option SpeedLearnEngine :=
  if e.isPlaying = false ∨ e.isPaused = true ∨ e.currentSession = none then
    some e
  else
    match e.sessionWords[e.currentWordIndex]? with
    | none => none
    | some word => some { e with audioQueue := buildAudioQueue word e.config }

/-- JavaScript `array.slice(-n)` for `n > 0`: the last `n` elements
(the whole array when it is shorter than `n`). -/
def jsSliceLast (l : List SpeedLearnSession) (n : ℕ) :
    List SpeedLearnSession :=
  l.drop (l.length - n)

/-- `SpeedLearnEngine.saveSession` (lines 804-813): append the
finalized session to the stored list and keep only the last 50
(`sessions.slice(-50)`); returns the list handed to
`chrome.storage.local.set`. -/
def saveSession (stored : List SpeedLearnSession)
    (session : SpeedLearnSession) : List SpeedLearnSession :=
  jsSliceLast (stored ++ [session]) 50

/-- A concrete vocabulary item used in witnesses and counterexamples. -/
def sampleWord : VocabularyItem :=
  { id := "w1"
    targetLanguageWord := "paani"
    englishTranslation := "water"
    srsData := sampleSRS }

/-- A concrete idle engine with a leftover working set from a previous
session, used in the C7 counterexample. -/
def engine0 : SpeedLearnEngine :=
  { currentSession := none
    isPlaying := false
    isPaused := false
    currentWordIndex := 0
    currentRepetition := 0
    sessionWords := [sampleWord]
    config := getDefaultConfig
    audioQueue := [] }

/-- A concrete in-flight session record, used in the C9 witness. -/
def session0 : SpeedLearnSession :=
  { id := "speed-learn-0"
    startTime := 0
    endTime := none
    itemsPlayed := []
    repetitionsCompleted := 0
    completed := false
    duration := none }

/-- A concrete actively-playing engine, used in the C9 witness. -/
def engine1 : SpeedLearnEngine :=
  { currentSession := some session0
    isPlaying := true
    isPaused := false
    currentWordIndex := 0
    currentRepetition := 0
    sessionWords := [sampleWord]
    config := getDefaultConfig
    audioQueue := [] }

/-- C5. One completed playback increments `exposureCount` by exactly one
and stamps `lastSpeedLearnSession := now`; when the post-increment count
reaches `exposuresBeforeMastery` the item is mastered (`MASTERED` stage,
`masteredAt := now`, `interval := 1`, `repetitions := 0`, next review one
day out), and otherwise a `NEW` item is promoted to `PASSIVE_LEARNING`. -/
theorem c5_exposure_update (srs : SRSData) (cfg : SpeedLearnConfig)
    (now : ℤ) :
    let r := updateWordExposure srs cfg now
    r.exposureCount = srs.exposureCount + 1 ∧
    r.lastSpeedLearnSession = some now ∧
    (cfg.exposuresBeforeMastery ≤ srs.exposureCount + 1 →
      r.speedLearnStage = SpeedLearnStage.MASTERED ∧
      r.masteredAt = some now ∧
      r.interval = 1 ∧
      r.repetitions = 0 ∧
      r.nextReviewDate = now + 86400000) ∧
    (srs.exposureCount + 1 < cfg.exposuresBeforeMastery →
      srs.speedLearnStage = SpeedLearnStage.NEW →
      r.speedLearnStage = SpeedLearnStage.PASSIVE_LEARNING) := by
  by_cases h : cfg.exposuresBeforeMastery ≤ srs.exposureCount + 1
  · refine ⟨?_, ?_, ?_, ?_⟩ <;>
      simp [updateWordExposure, h, millisecondsInADay]
  · by_cases hn : srs.speedLearnStage = SpeedLearnStage.NEW <;>
      refine ⟨?_, ?_, ?_, ?_⟩ <;>
        simp [updateWordExposure, h, hn, millisecondsInADay]

/-- Witness for C5 at an item one exposure short of mastery. -/
theorem c5_exposure_update_witness :
    getDefaultConfig.exposuresBeforeMastery ≤
        { sampleSRS with exposureCount := 4 }.exposureCount + 1 ∧
    (updateWordExposure { sampleSRS with exposureCount := 4 }
        getDefaultConfig 7).speedLearnStage = SpeedLearnStage.MASTERED ∧
    (updateWordExposure { sampleSRS with exposureCount := 4 }
        getDefaultConfig 7).exposureCount = 5 := by
  have h := c5_exposure_update { sampleSRS with exposureCount := 4 }
    getDefaultConfig 7
  have hm := h.2.2.1 (by decide)
  exact ⟨by decide, hm.1, by rw [h.1]⟩

/-- C6. The working set returned by `getSessionWords` has at most
`maxWordsPerSession` items, and whenever the stage filter is non-empty
(the fallback is not taken) it contains no `MASTERED` and no
`LONG_TERM_REVIEW` item. -/
theorem c6_session_word_selection (allItems : List VocabularyItem)
    (cfg : SpeedLearnConfig) :
    let r := getSessionWords allItems cfg
    r.length ≤ cfg.maxWordsPerSession ∧
    (allItems.filter isNewLearning ≠ [] →
      ∀ w ∈ r,
        w.srsData.speedLearnStage ≠ SpeedLearnStage.MASTERED ∧
        w.srsData.speedLearnStage ≠ SpeedLearnStage.LONG_TERM_REVIEW) := by
  refine ⟨?_, ?_⟩
  · simp only [getSessionWords]
    by_cases hc : (allItems.filter isNewLearning).length = 0 ∧
        allItems.length > 0
    · rw [if_pos hc]
      simp [List.length_take]
    · rw [if_neg hc]
      simp [List.length_take]
  · intro hne w hw
    have hlen : ¬ ((allItems.filter isNewLearning).length = 0 ∧
        allItems.length > 0) := by
      intro hc
      exact hne (List.length_eq_zero.mp hc.1)
    unfold getSessionWords at hw
    rw [if_neg hlen] at hw
    have hmem : w ∈ allItems.filter isNewLearning :=
      List.take_subset _ _ hw
    have hp : isNewLearning w := List.of_mem_filter hmem
    simp only [isNewLearning, decide_eq_true_eq] at hp
    rcases hp with hp | hp <;> simp [hp]

/-- A concrete mastered vocabulary item, used in the C6 witness. -/
def masteredWord : VocabularyItem :=
  { sampleWord with
      id := "w2"
      srsData := { sampleSRS with
        speedLearnStage := SpeedLearnStage.MASTERED } }

/-- Witness for C6 on a two-item collection, one of them mastered. -/
theorem c6_session_word_selection_witness :
    ([sampleWord, masteredWord].filter isNewLearning ≠ []) ∧
    (getSessionWords [sampleWord, masteredWord] getDefaultConfig).length
        ≤ getDefaultConfig.maxWordsPerSession ∧
    ∀ w ∈ getSessionWords [sampleWord, masteredWord] getDefaultConfig,
      w.srsData.speedLearnStage ≠ SpeedLearnStage.MASTERED ∧
      w.srsData.speedLearnStage ≠ SpeedLearnStage.LONG_TERM_REVIEW := by
  have h := c6_session_word_selection [sampleWord, masteredWord]
    getDefaultConfig
  exact ⟨by decide, h.1, h.2 (by decide)⟩

/-- C7 counterexample. With the idle engine `engine0` (leftover working
set `[sampleWord]`) and an empty vocabulary collection, `startSession`
fails with the "no eligible items" error yet the engine state after the
call differs from the state before it: the cached working set has been
overwritten with the empty selection result (the source assigns
`this.sessionWords` before the emptiness check throws). -/
theorem c7_counterexample :
    (startSession engine0 [] none 0).2 =
      Except.error "No words available for Speed Learn session" ∧
    (startSession engine0 [] none 0).1.sessionWords ≠ engine0.sessionWords ∧
    (startSession engine0 [] none 0).1 ≠ engine0 := by
  refine ⟨rfl, by decide, ?_⟩
  intro h
  have hw : (startSession engine0 [] none 0).1.sessionWords
      = engine0.sessionWords := by rw [h]
  exact absurd hw (by decide)

/-- C7 amended. When `startSession` is called while no session is
playing and the (post-merge) working-set selection is empty, it fails
with the "no eligible items" error; `currentSession`, the cursor, the
playing and paused flags and the audio queue are unchanged, but the
stored configuration has been overwritten with the merged configuration
and the cached working set with the empty selection result. -/
theorem c7_no_eligible_items (e : SpeedLearnEngine)
    (allItems : List VocabularyItem) (ov : Option PartialSpeedLearnConfig)
    (now : ℤ)
    (hnp : e.isPlaying = false)
    (hempty : getSessionWords allItems
      (ov.elim e.config (fun p => mergeConfig e.config p)) = []) :
    let r := startSession e allItems ov now
    r.2 = Except.error "No words available for Speed Learn session" ∧
    r.1.currentSession = e.currentSession ∧
    r.1.isPlaying = e.isPlaying ∧
    r.1.isPaused = e.isPaused ∧
    r.1.currentWordIndex = e.currentWordIndex ∧
    r.1.currentRepetition = e.currentRepetition ∧
    r.1.audioQueue = e.audioQueue ∧
    r.1.config = ov.elim e.config (fun p => mergeConfig e.config p) ∧
    r.1.sessionWords = [] := by
  cases ov with
  | none =>
      simp only [Option.elim] at hempty ⊢
      simp [startSession, hnp, hempty]
  | some p =>
      simp only [Option.elim] at hempty ⊢
      simp [startSession, hnp, hempty]

/-- Witness for C7 (amended) at `engine0` with an empty collection and
a config override raising `repetitionsPerSession` to 5. -/
theorem c7_no_eligible_items_witness :
    (engine0.isPlaying = false ∧
     getSessionWords []
       ((some { repetitionsPerSession := some 5 } :
           Option PartialSpeedLearnConfig).elim engine0.config
         (fun p => mergeConfig engine0.config p)) = []) ∧
    ((startSession engine0 [] (some { repetitionsPerSession := some 5 }) 3).2 =
      Except.error "No words available for Speed Learn session" ∧
     (startSession engine0 []
        (some { repetitionsPerSession := some 5 }) 3).1.currentSession =
       engine0.currentSession ∧
     (startSession engine0 []
        (some { repetitionsPerSession := some 5 }) 3).1.isPlaying =
       engine0.isPlaying ∧
     (startSession engine0 []
        (some { repetitionsPerSession := some 5 }) 3).1.isPaused =
       engine0.isPaused ∧
     (startSession engine0 []
        (some { repetitionsPerSession := some 5 }) 3).1.currentWordIndex =
       engine0.currentWordIndex ∧
     (startSession engine0 []
        (some { repetitionsPerSession := some 5 }) 3).1.currentRepetition =
       engine0.currentRepetition ∧
     (startSession engine0 []
        (some { repetitionsPerSession := some 5 }) 3).1.audioQueue =
       engine0.audioQueue ∧
     (startSession engine0 []
        (some { repetitionsPerSession := some 5 }) 3).1.config =
       (some { repetitionsPerSession := some 5 } :
           Option PartialSpeedLearnConfig).elim engine0.config
         (fun p => mergeConfig engine0.config p) ∧
     (startSession engine0 []
        (some { repetitionsPerSession := some 5 }) 3).1.sessionWords = []) :=
  ⟨⟨by decide, by decide⟩,
   c7_no_eligible_items engine0 [] (some { repetitionsPerSession := some 5 })
     3 (by decide) (by decide)⟩

/-- Helper for C8: folding `recordPlayed` over any list of played ids
preserves `Nodup` of `itemsPlayed` and its membership is the union of
the prior membership and the played ids. -/
theorem recordPlayed_foldl_spec (ids : List String)
    (s : SpeedLearnSession) (h : s.itemsPlayed.Nodup) :
    (ids.foldl recordPlayed s).itemsPlayed.Nodup ∧
    ∀ a, a ∈ (ids.foldl recordPlayed s).itemsPlayed ↔
      a ∈ s.itemsPlayed ∨ a ∈ ids := by
  induction ids generalizing s with
  | nil => exact ⟨h, fun a => by simp⟩
  | cons x xs ih =>
      have hstep : (recordPlayed s x).itemsPlayed.Nodup ∧
          ∀ a, a ∈ (recordPlayed s x).itemsPlayed ↔
            a ∈ s.itemsPlayed ∨ a = x := by
        unfold recordPlayed
        split
        · rename_i hx
          refine ⟨h, fun a => ⟨Or.inl, ?_⟩⟩
          rintro (ha | rfl)
          · exact ha
          · exact hx
        · rename_i hx
          constructor
          · rw [List.nodup_append_comm]
            simpa [List.nodup_cons] using ⟨hx, h⟩
          · intro a
            simp
      have := ih (recordPlayed s x) hstep.1
      refine ⟨this.1, fun a => ?_⟩
      rw [List.foldl_cons, (this.2 a), hstep.2 a]
      simp [or_assoc]

/-- C8. Within one session (created with `itemsPlayed = []`), after any
sequence of completed item playbacks `itemIdsPlayed` has no duplicates
and contains each played id exactly once. -/
theorem c8_items_played_once (ids : List String) (s : SpeedLearnSession)
    (h : s.itemsPlayed = []) :
    (ids.foldl recordPlayed s).itemsPlayed.Nodup ∧
    ∀ a ∈ ids, (ids.foldl recordPlayed s).itemsPlayed.count a = 1 := by
  have hn : s.itemsPlayed.Nodup := by rw [h]; exact List.nodup_nil
  obtain ⟨hnodup, hmem⟩ := recordPlayed_foldl_spec ids s hn
  refine ⟨hnodup, fun a ha => ?_⟩
  exact List.count_eq_one_of_mem hnodup
    ((hmem a).mpr (Or.inr ha))

/-- Witness for C8: playing ids w1, w2, w1 again from a fresh session
record yields a duplicate-free list counting each id once. -/
theorem c8_items_played_once_witness :
    session0.itemsPlayed = [] ∧
    ((["w1", "w2", "w1"].foldl recordPlayed session0).itemsPlayed.Nodup ∧
     ∀ a ∈ ["w1", "w2", "w1"],
       (["w1", "w2", "w1"].foldl recordPlayed
         session0).itemsPlayed.count a = 1) :=
  ⟨rfl, c8_items_played_once ["w1", "w2", "w1"] session0 rfl⟩

/-- C9. `pause()` immediately followed by `resume()` leaves the cursor
(`currentWordIndex`, `currentRepetition`) unchanged, and when the engine
was actively playing a current word, the subsequent `playCurrentWord`
rebuilds the full four-step audio queue for that word from scratch, its
first step being the Hindi (source-text) utterance. -/
theorem c9_pause_resume (e : SpeedLearnEngine) :
    let ep := resumeSession (pauseSession e)
    ep.currentWordIndex = e.currentWordIndex ∧
    ep.currentRepetition = e.currentRepetition ∧
    (e.isPlaying = true → e.currentSession.isSome →
      ∀ w, e.sessionWords[e.currentWordIndex]? = some w →
        playCurrentWordSetup ep =
          some { ep with audioQueue := buildAudioQueue w e.config } ∧
        (buildAudioQueue w e.config).head? =
          some (AudioStep.speak w.targetLanguageWord "hi-IN")) := by
  by_cases hp : e.isPlaying = true
  · have hep : resumeSession (pauseSession e) =
        { e with isPaused := false } := by
      simp [pauseSession, resumeSession, hp]
    refine ⟨by rw [hep], by rw [hep], ?_⟩
    intro _ hsome w hw
    have hs : e.currentSession ≠ none := by
      intro hc
      rw [hc] at hsome
      simp at hsome
    refine ⟨?_, rfl⟩
    rw [hep]
    simp only [playCurrentWordSetup]
    rw [if_neg (by simp [hp, hs])]
    have hw2 : ({ e with isPaused := false } :
        SpeedLearnEngine).sessionWords[({ e with isPaused := false } :
          SpeedLearnEngine).currentWordIndex]? = some w := hw
    rw [hw2]
  · have hpf : e.isPlaying = false := by
      cases hx : e.isPlaying
      · rfl
      · exact absurd hx hp
    have hep : resumeSession (pauseSession e) = e := by
      simp [pauseSession, resumeSession, hpf]
    refine ⟨by rw [hep], by rw [hep], ?_⟩
    intro hpl
    exact absurd hpl hp

/-- Witness for C9 at the actively-playing engine `engine1`. -/
theorem c9_pause_resume_witness :
    (engine1.isPlaying = true ∧ engine1.currentSession.isSome ∧
     engine1.sessionWords[engine1.currentWordIndex]? = some sampleWord) ∧
    ((resumeSession (pauseSession engine1)).currentWordIndex =
       engine1.currentWordIndex ∧
     (resumeSession (pauseSession engine1)).currentRepetition =
       engine1.currentRepetition ∧
     playCurrentWordSetup (resumeSession (pauseSession engine1)) =
       some { resumeSession (pauseSession engine1) with
         audioQueue := buildAudioQueue sampleWord engine1.config } ∧
     (buildAudioQueue sampleWord engine1.config).head? =
       some (AudioStep.speak sampleWord.targetLanguageWord "hi-IN")) := by
  have h := c9_pause_resume engine1
  have h3 := h.2.2 rfl rfl sampleWord rfl
  exact ⟨⟨rfl, rfl, rfl⟩, h.1, h.2.1, h3.1, h3.2⟩

/-- C10. `saveSession` stores at most 50 sessions: the stored list is
the suffix of the previous list with the just-finalized session
appended, its length is the minimum of (previous length + 1) and 50,
and the just-finalized session is its last entry. -/
theorem c10_save_session_bounded (stored : List SpeedLearnSession)
    (s : SpeedLearnSession) :
    let r := saveSession stored s
    r.length = min (stored.length + 1) 50 ∧
    r.getLast? = some s ∧
    r <:+ (stored ++ [s]) := by
  refine ⟨?_, ?_, ?_⟩
  · simp only [saveSession, jsSliceLast, List.length_drop,
      List.length_append, List.length_cons, List.length_nil]
    omega
  · have hd : (stored ++ [s]).length - 50 ≤ stored.length := by
      simp only [List.length_append, List.length_cons, List.length_nil]
      omega
    simp only [saveSession, jsSliceLast]
    rw [List.drop_append_of_le_length hd, List.getLast?_concat]
  · exact List.drop_suffix _ _

/-- Witness for C10: saving into a two-session history. -/
theorem c10_save_session_bounded_witness :
    (saveSession [session0, session0] session0).length =
      min ([session0, session0].length + 1) 50 ∧
    (saveSession [session0, session0] session0).getLast? = some session0 ∧
    (saveSession [session0, session0] session0) <:+
      ([session0, session0] ++ [session0]) :=
  c10_save_session_bounded [session0, session0] session0
